import Mathlib

/-!
Verification of the YANG tile-based RPG core (entities.py, items.py, spells.py,
engine.py, world_generation.py, config.py) against its natural-language
specification.  Each operation the claims mention is shallowly embedded as an
executable Lean definition translated from the Python source; randomness is
made explicit by threading a supply of draws, and fallible Python code (raised
exceptions) is modelled with `Except`/`Option` results.
-/

/-! ## Association-list dictionaries

Python dictionaries touched by the claims (`spell_slots`, `prepared_spells`,
`equipment`, `ARCHETYPES`, `MONSTER_TEMPLATES`, ability-score maps) are
modelled as association lists with first-match lookup and in-place update. -/

/-- Lookup in an association list; `none` models a missing key
(a bare `d[k]` on a missing key raises `KeyError` in Python). -/
def dict_get {κ α : Type} [DecidableEq κ] : List (κ × α) → κ → Option α
  | [], _ => none
  | p :: rest, k => if p.1 = k then some p.2 else dict_get rest k

/-- Python `d.get(k, dflt)`. -/
def dict_getD {κ α : Type} [DecidableEq κ] (d : List (κ × α)) (k : κ) (dflt : α) : α :=
  (dict_get d k).getD dflt

/-- Python `d[k] = v`: replace the binding if the key exists, else append it. -/
def dict_set {κ α : Type} [DecidableEq κ] : List (κ × α) → κ → α → List (κ × α)
  | [], k, v => [(k, v)]
  | p :: rest, k, v => if p.1 = k then (k, v) :: rest else p :: dict_set rest k v

/-- Python `k in d` for a dictionary. -/
def dict_hasKey {κ α : Type} [DecidableEq κ] (d : List (κ × α)) (k : κ) : Bool :=
  (dict_get d k).isSome

theorem dict_get_set_self {κ α : Type} [DecidableEq κ] (d : List (κ × α)) (k : κ) (v : α) :
    dict_get (dict_set d k v) k = some v := by
  induction d with
  | nil => simp [dict_set, dict_get]
  | cons p rest ih =>
    by_cases h : p.1 = k
    · simp [dict_set, h, dict_get]
    · simp [dict_set, h, dict_get, ih]

/-- Python `list.remove(x)` for strings: drop the first occurrence. -/
def removeFirst : List String → String → List String
  | [], _ => []
  | x :: xs, s => if x = s then xs else x :: removeFirst xs s

/-! ## Dice and modifiers (entities.py lines 9-19)

`random.randint(1, sides)` is modelled by drawing one natural number from an
explicit supply and normalising it into `[1, sides]`; `roll_dice` consumes
`num_dice` draws from the front of the supply (an exhausted supply yields the
draw 0, i.e. the roll 1). -/

/-- One uniform draw in `[1, sides]` obtained from the raw random value `u`. -/
def randint1 (sides : Nat) (u : Nat) : Int :=
  1 + Int.ofNat (u % sides)

/-- entities.py `roll_dice(num_dice, sides)`: sum of `num_dice` draws in
`[1, sides]`, consuming the supply; returns the total and the remaining supply. -/
def roll_dice : Nat → Nat → List Nat → Int × List Nat
  | 0, _, supply => (0, supply)
  | n + 1, sides, supply =>
    let v := randint1 sides (supply.headD 0)
    let r := roll_dice n sides supply.tail
    (v + r.1, r.2)

/-- entities.py `calculate_modifier(score)`: `math.floor((score - 10) / 2)`. -/
def calculate_modifier (score : Int) : Int :=
  Int.fdiv (score - 10) 2

/-! ## Combatant.take_damage (entities.py lines 133-137) -/

/-- The slice of `Combatant` state that `take_damage` touches. -/
structure CombatantHp where
  hp : Int
deriving DecidableEq

/-- entities.py `Combatant.take_damage`: subtract the damage from hp, clamp hp
below at 0, and return the (unmodified) `damage` argument. -/
def take_damage (c : CombatantHp) (damage : Int) : CombatantHp × Int :=
  let hp := c.hp - damage
  let hp := if hp < 0 then 0 else hp
  (⟨hp⟩, damage)

/-- C5 counterexample: a combatant with 3 hp taking 10 damage loses only 3 hp
(hp goes from 3 to 0) yet `take_damage` returns 10, which is not at most the
3 hp the combatant had before the call — refuting the claim that the return
value is the hp actually lost. -/
theorem take_damage_returns_raw_amount :
    (take_damage ⟨3⟩ 10).2 = 10 ∧
    (⟨3⟩ : CombatantHp).hp - (take_damage ⟨3⟩ 10).1.hp = 3 ∧
    ¬ ((take_damage ⟨3⟩ 10).2 ≤ (⟨3⟩ : CombatantHp).hp) := by
  decide

/-- C5 (amended): `take_damage(amount)` subtracts the amount from hp, floors hp
at 0, and returns the amount passed in unchanged — a value that can exceed the
hp actually lost. -/
theorem take_damage_spec (c : CombatantHp) (damage : Int) :
    (take_damage c damage).1.hp = max 0 (c.hp - damage) ∧
    0 ≤ (take_damage c damage).1.hp ∧
    (take_damage c damage).2 = damage := by
  unfold take_damage
  refine ⟨?_, ?_, rfl⟩ <;> dsimp only <;> omega

/-! ## Player construction hp (entities.py lines 205-220, config.py ARCHETYPES) -/

/-- config.py `ARCHETYPES[...]["hp_die"]`: Warrior d10, Mage d4, Expert d6. -/
def ARCHETYPE_HP_DIE : List (String × Nat) :=
  [("Warrior", 10), ("Mage", 4), ("Expert", 6)]

/-- The slice of `Player.__init__` state relevant to hp initialization. -/
structure PlayerInit where
  gold : Int
  max_hp : Int
  hp : Int
deriving DecidableEq

/-- entities.py `Player.__init__` lines 213-220: starting gold is
`roll_dice(3, 6) * 10` (consuming three draws), then
`max_hp = roll_dice(1, hp_die) + modifiers['CON']` clamped below at 1, and
`hp = max_hp`.  Returns `none` when the archetype or the CON score is missing
(a `KeyError` in Python). -/
def player_init_hp (archetype : String) (abilities : List (String × Int))
    (supply : List Nat) : Option PlayerInit :=
  match dict_get ARCHETYPE_HP_DIE archetype with
  | none => none
  | some hp_die =>
    match dict_get abilities "CON" with
    | none => none
    | some con =>
      let goldRoll := roll_dice 3 6 supply
      let gold := goldRoll.1 * 10
      let hpRoll := roll_dice 1 hp_die goldRoll.2
      let max_hp := hpRoll.1 + calculate_modifier con
      let max_hp := if max_hp < 1 then 1 else max_hp
      some ⟨gold, max_hp, max_hp⟩

/-- C10: at Player construction, `max_hp` is the hp-die roll plus the CON
modifier clamped below at 1, and `hp` is initialized equal to `max_hp`, so
every newly created Player starts with `hp = max_hp ≥ 1` — even when a
negative CON modifier drives the rolled total to zero or below. -/
theorem player_init_hp_spec (archetype : String) (abilities : List (String × Int))
    (supply : List Nat) (p : PlayerInit) (hp_die : Nat) (con : Int)
    (hdie : dict_get ARCHETYPE_HP_DIE archetype = some hp_die)
    (hcon : dict_get abilities "CON" = some con)
    (hp_eq : player_init_hp archetype abilities supply = some p) :
    p.max_hp = max 1 ((roll_dice 1 hp_die (roll_dice 3 6 supply).2).1 + calculate_modifier con) ∧
    p.hp = p.max_hp ∧
    1 ≤ p.max_hp ∧
    1 ≤ p.hp := by
  unfold player_init_hp at hp_eq
  rw [hdie, hcon] at hp_eq
  dsimp only at hp_eq
  injection hp_eq with hp_eq
  subst hp_eq
  refine ⟨?_, rfl, ?_, ?_⟩ <;> dsimp only <;> omega

/-- C10 witness: a Mage with CON 3 (modifier −4) and minimal rolls
(every raw draw 0, so the d4 hp roll is 1 and the raw total 1 − 4 = −3) still
starts with `hp = max_hp = 1`. -/
theorem player_init_hp_spec_witness :
    (⟨30, 1, 1⟩ : PlayerInit).max_hp
        = max 1 ((roll_dice 1 4 (roll_dice 3 6 [0, 0, 0, 0]).2).1 + calculate_modifier 3) ∧
    (⟨30, 1, 1⟩ : PlayerInit).hp = (⟨30, 1, 1⟩ : PlayerInit).max_hp ∧
    1 ≤ (⟨30, 1, 1⟩ : PlayerInit).max_hp ∧
    1 ≤ (⟨30, 1, 1⟩ : PlayerInit).hp :=
  player_init_hp_spec "Mage" [("CON", 3)] [0, 0, 0, 0] ⟨30, 1, 1⟩ 4 3 rfl rfl (by decide)

/-! ## Spell catalog and casting (spells.py, entities.py lines 376-426)

The claims about `cast_spell` concern its preparation/slot bookkeeping, not
the world mutations performed by the individual effect functions, so the
embedding records each spell's name and level (the fields `cast_spell` reads)
and takes the outcome of executing the spell's `effect` as an explicit
`Except` argument: `Except.error e` models the effect raising exception `e`,
which the Python code catches in its `try`/`except` block. -/

/-- spells.py `Spell`: the fields `cast_spell` reads. -/
structure Spell where
  name : String
  level : Nat
deriving DecidableEq

/-- spells.py `CORE_SPELLS`: the ten catalog spells with their levels. -/
def CORE_SPELLS : List Spell :=
  [⟨"Light", 1⟩, ⟨"Magic Missile", 1⟩, ⟨"Shield", 1⟩, ⟨"Sleep", 1⟩,
   ⟨"Invisibility", 2⟩, ⟨"Scorching Ray", 2⟩, ⟨"Web", 2⟩,
   ⟨"Fireball", 3⟩, ⟨"Fly", 3⟩, ⟨"Haste", 3⟩]

/-- spells.py `get_spell_by_name`: dictionary lookup in the catalog. -/
def get_spell_by_name (name : String) : Option Spell :=
  CORE_SPELLS.find? (fun s => decide (s.name = name))

/-- The slice of `Player` state that `cast_spell` reads and writes. -/
structure CasterState where
  archetype : String
  spell_slots : List (Nat × Int)
  prepared_spells : List (Nat × List String)
deriving DecidableEq

/-- Result of a `cast_spell` call: the returned message and the caster state. -/
structure CastOutcome where
  message : String
  caster : CasterState
deriving DecidableEq

/-- entities.py `Player.cast_spell` lines 400-426: reject non-Mages, unknown
spells, unprepared spells and empty slot pools; otherwise decrement the slot,
remove the spell from the prepared list, and run the effect inside
`try`/`except`, turning a raised exception into a "Spell casting failed"
message (with no rollback of the slot or the preparation). -/
def cast_spell (p : CasterState) (spell_name : String)
    (effectResult : Except String String) : CastOutcome :=
  if p.archetype ≠ "Mage" then ⟨"You cannot cast spells!", p⟩
  else
    match get_spell_by_name spell_name with
    | none => ⟨"Unknown spell: " ++ spell_name ++ "!", p⟩
    | some spell =>
      if spell_name ∉ dict_getD p.prepared_spells spell.level [] then
        ⟨spell_name ++ " is not prepared!", p⟩
      else if dict_getD p.spell_slots spell.level 0 ≤ 0 then
        ⟨"No spell slots remaining for that level!", p⟩
      else
        let slots := dict_set p.spell_slots spell.level
          (dict_getD p.spell_slots spell.level 0 - 1)
        let prepared := dict_set p.prepared_spells spell.level
          (removeFirst (dict_getD p.prepared_spells spell.level []) spell_name)
        let p2 : CasterState :=
          { p with spell_slots := slots, prepared_spells := prepared }
        match effectResult with
        | .ok r => ⟨r, p2⟩
        | .error e => ⟨"Spell casting failed: " ++ e, p2⟩

/-- C4: for a Mage, casting a catalog spell that is not in
`prepared_spells[spell.level]` returns the "not prepared" message and leaves
the caster state (in particular every spell slot) unchanged; casting a
prepared spell when `spell_slots[spell.level]` is 0 returns the slot-failure
message and leaves the caster state (in particular the prepared list)
unchanged. -/
theorem cast_spell_rejections (p : CasterState) (spell_name : String) (spell : Spell)
    (eff : Except String String)
    (harch : p.archetype = "Mage")
    (hspell : get_spell_by_name spell_name = some spell) :
    (spell_name ∉ dict_getD p.prepared_spells spell.level [] →
      cast_spell p spell_name eff = ⟨spell_name ++ " is not prepared!", p⟩) ∧
    (spell_name ∈ dict_getD p.prepared_spells spell.level [] →
      dict_getD p.spell_slots spell.level 0 = 0 →
      cast_spell p spell_name eff = ⟨"No spell slots remaining for that level!", p⟩) := by
  constructor
  · intro hnp
    unfold cast_spell
    rw [hspell]
    simp [harch, hnp]
  · intro hprep hzero
    unfold cast_spell
    rw [hspell]
    simp [harch, hprep, hzero]

/-- C4 witness: a level-1 Mage who has nothing prepared gets the
"not prepared" rejection for Magic Missile with state untouched, and one who
has Magic Missile prepared but zero level-1 slots gets the slot rejection with
state untouched. -/
theorem cast_spell_rejections_witness :
    cast_spell ⟨"Mage", [(1, 2), (2, 0), (3, 0)], [(1, []), (2, []), (3, [])]⟩
        "Magic Missile" (.ok "hit")
      = ⟨"Magic Missile is not prepared!",
         ⟨"Mage", [(1, 2), (2, 0), (3, 0)], [(1, []), (2, []), (3, [])]⟩⟩ ∧
    cast_spell ⟨"Mage", [(1, 0), (2, 0), (3, 0)], [(1, ["Magic Missile"]), (2, []), (3, [])]⟩
        "Magic Missile" (.ok "hit")
      = ⟨"No spell slots remaining for that level!",
         ⟨"Mage", [(1, 0), (2, 0), (3, 0)], [(1, ["Magic Missile"]), (2, []), (3, [])]⟩⟩ :=
  ⟨(cast_spell_rejections _ "Magic Missile" ⟨"Magic Missile", 1⟩ _ rfl rfl).1 (by decide),
   (cast_spell_rejections _ "Magic Missile" ⟨"Magic Missile", 1⟩ _ rfl rfl).2
     (by decide) (by decide)⟩

/-- C9: when a Mage casts a prepared spell with a slot available and the
effect function raises, `cast_spell` catches the exception and returns the
"Spell casting failed" message, while the slot stays decremented and the spell
stays removed from the prepared list — the failed cast consumes both, with no
rollback. -/
theorem cast_spell_effect_exception_consumes (p : CasterState) (spell_name : String)
    (spell : Spell) (err : String)
    (harch : p.archetype = "Mage")
    (hspell : get_spell_by_name spell_name = some spell)
    (hprep : spell_name ∈ dict_getD p.prepared_spells spell.level [])
    (hslot : 0 < dict_getD p.spell_slots spell.level 0) :
    (cast_spell p spell_name (.error err)).message = "Spell casting failed: " ++ err ∧
    dict_getD (cast_spell p spell_name (.error err)).caster.spell_slots spell.level 0
      = dict_getD p.spell_slots spell.level 0 - 1 ∧
    dict_getD (cast_spell p spell_name (.error err)).caster.prepared_spells spell.level []
      = removeFirst (dict_getD p.prepared_spells spell.level []) spell_name := by
  have hout : cast_spell p spell_name (.error err) =
      ⟨"Spell casting failed: " ++ err,
       { p with
         spell_slots := dict_set p.spell_slots spell.level
           (dict_getD p.spell_slots spell.level 0 - 1),
         prepared_spells := dict_set p.prepared_spells spell.level
           (removeFirst (dict_getD p.prepared_spells spell.level []) spell_name) }⟩ := by
    unfold cast_spell
    rw [hspell]
    simp [harch, hprep]
    omega
  rw [hout]
  refine ⟨rfl, ?_, ?_⟩
  · simp [dict_getD, dict_get_set_self]
  · simp [dict_getD, dict_get_set_self]

/-- C9 witness: a Mage with Magic Missile prepared and two level-1 slots whose
effect raises "boom" gets the failure message, one remaining level-1 slot, and
an empty level-1 prepared list. -/
theorem cast_spell_effect_exception_consumes_witness :
    (cast_spell ⟨"Mage", [(1, 2), (2, 0), (3, 0)], [(1, ["Magic Missile"]), (2, []), (3, [])]⟩
        "Magic Missile" (.error "boom")).message = "Spell casting failed: boom" ∧
    dict_getD (cast_spell ⟨"Mage", [(1, 2), (2, 0), (3, 0)],
        [(1, ["Magic Missile"]), (2, []), (3, [])]⟩
        "Magic Missile" (.error "boom")).caster.spell_slots 1 0
      = dict_getD [(1, (2 : Int)), (2, 0), (3, 0)] 1 0 - 1 ∧
    dict_getD (cast_spell ⟨"Mage", [(1, 2), (2, 0), (3, 0)],
        [(1, ["Magic Missile"]), (2, []), (3, [])]⟩
        "Magic Missile" (.error "boom")).caster.prepared_spells 1 []
      = removeFirst ["Magic Missile"] "Magic Missile" :=
  cast_spell_effect_exception_consumes
    ⟨"Mage", [(1, 2), (2, 0), (3, 0)], [(1, ["Magic Missile"]), (2, []), (3, [])]⟩
    "Magic Missile" ⟨"Magic Missile", 1⟩ "boom" rfl rfl (by decide) (by decide)

/-! ## Items and equipping (items.py, config.py, entities.py lines 463-492)

`Item` in Python defines no `__eq__`, so the membership tests
`item not in allowed_weapons` / `item in self.inventory` and
`self.inventory.remove(item)` compare by object identity.  The embedding gives
every item an object id `oid` and performs those tests on `oid`. -/

/-- The fields of items.py `Item` that `equip` reads, plus the object id. -/
structure Item where
  oid : Nat
  name : String
  category : Option String
  equip_slot : Option String
deriving DecidableEq

/-- Keys of config.py `WEAPON_CATEGORIES` (what `c in WEAPON_CATEGORIES` sees). -/
def WEAPON_CATEGORIES : List String :=
  ["Simple Melee", "Light Melee", "Heavy Melee", "Light Ranged", "Heavy Ranged"]

/-- Keys of config.py `ARMOR_CATEGORIES`. -/
def ARMOR_CATEGORIES : List String :=
  ["Light Armor", "Medium Armor", "Heavy Armor", "Shield"]

/-- items.py `Item.__init__`: a weapon category fills `equip_slot` with
"Weapon", the "Shield" armor category with "Shield", the other armor
categories with "Armor"; other items keep the (default `None`) slot. -/
def mkItem (oid : Nat) (name : String) (category : Option String) : Item :=
  { oid := oid, name := name, category := category,
    equip_slot :=
      match category with
      | some c =>
        if c ∈ WEAPON_CATEGORIES then some "Weapon"
        else if c = "Shield" then some "Shield"
        else if c ∈ ARMOR_CATEGORIES then some "Armor"
        else none
      | none => none }

def dagger : Item := mkItem 0 "Dagger" (some "Simple Melee")

def club : Item := mkItem 1 "Club" (some "Simple Melee")

def short_sword : Item := mkItem 2 "Short Sword" (some "Light Melee")

def mace : Item := mkItem 3 "Mace" (some "Light Melee")

def hand_axe : Item := mkItem 4 "Hand Axe" (some "Light Melee")

def longsword : Item := mkItem 5 "Longsword" (some "Heavy Melee")

def battle_axe : Item := mkItem 6 "Battle Axe" (some "Heavy Melee")

def greatsword : Item := mkItem 7 "Greatsword" (some "Heavy Melee")

def short_bow : Item := mkItem 8 "Short Bow" (some "Light Ranged")

def long_bow : Item := mkItem 9 "Long Bow" (some "Heavy Ranged")

def leather_armor : Item := mkItem 10 "Leather Armor" (some "Light Armor")

def studded_leather : Item := mkItem 11 "Studded Leather" (some "Light Armor")

def scale_mail : Item := mkItem 12 "Scale Mail" (some "Medium Armor")

def chain_mail : Item := mkItem 13 "Chain Mail" (some "Medium Armor")

/-- items.py names this instance "Heavy Armor" (its display name). -/
def splint_armor : Item := mkItem 14 "Heavy Armor" (some "Heavy Armor")

def plate_armor : Item := mkItem 15 "Plate Armor" (some "Heavy Armor")

def wooden_shield : Item := mkItem 16 "Wooden Shield" (some "Shield")

def steel_shield : Item := mkItem 17 "Steel Shield" (some "Shield")

/-- items.py `iron_sword_plus_1`: a `MagicItem` over base category
"Light Melee"; it is a fresh object, not a member of `ALL_WEAPONS`. -/
def iron_sword_plus_1 : Item := mkItem 18 "Iron Sword +1" (some "Light Melee")

/-- items.py `ring_of_protection_plus_1`: no category, slot set to "Ring". -/
def ring_of_protection_plus_1 : Item :=
  { oid := 19, name := "Ring of Protection +1", category := none,
    equip_slot := some "Ring" }

def health_potion : Item := mkItem 20 "Potion of Healing" none

def ALL_WEAPONS : List Item :=
  [dagger, club, short_sword, mace, hand_axe,
   longsword, battle_axe, greatsword, short_bow, long_bow]

def ALL_ARMOR : List Item :=
  [leather_armor, studded_leather, scale_mail, chain_mail,
   splint_armor, plate_armor, wooden_shield, steel_shield]

/-- items.py `get_weapons_by_proficiency`: the archetype's allow-list of
canonical weapon objects. -/
def get_weapons_by_proficiency (archetype : String) : List Item :=
  if archetype = "Warrior" then ALL_WEAPONS
  else if archetype = "Mage" then [dagger, club]
  else if archetype = "Expert" then
    [dagger, club, short_sword, mace, hand_axe, short_bow, long_bow]
  else []

/-- items.py `get_armor_by_proficiency`: the archetype's allow-list of
canonical armor objects. -/
def get_armor_by_proficiency (archetype : String) : List Item :=
  if archetype = "Warrior" then ALL_ARMOR
  else if archetype = "Mage" then []
  else if archetype = "Expert" then
    [leather_armor, studded_leather, scale_mail, chain_mail, wooden_shield, steel_shield]
  else []

/-- Python `item in items` on `Item` objects: identity membership. -/
def item_in : Item → List Item → Bool
  | _, [] => false
  | it, x :: xs => if x.oid = it.oid then true else item_in it xs

/-- Python `items.remove(item)` on `Item` objects: drop the first occurrence
by identity. -/
def remove_first_item : List Item → Item → List Item
  | [], _ => []
  | x :: xs, it => if x.oid = it.oid then xs else x :: remove_first_item xs it

/-- Number of items in `l` with object id `i`. -/
def count_oid (l : List Item) (i : Nat) : Nat :=
  (l.filter (fun x => decide (x.oid = i))).length

/-- The slice of `Player` state that `equip` reads and writes. -/
structure PlayerEquip where
  archetype : String
  equipment : List (String × Option Item)
  inventory : List Item
deriving DecidableEq

/-- entities.py `Player.equip` lines 482-492, the success path: return the
previously equipped item (if any) to the inventory, install the new item in
the slot, then remove the new item from the inventory if it is there. -/
def equip_install (p : PlayerEquip) (item : Item) (slot : String) : String × PlayerEquip :=
  let inv :=
    match dict_getD p.equipment slot none with
    | some old => p.inventory ++ [old]
    | none => p.inventory
  let equipment := dict_set p.equipment slot (some item)
  let inv := if item_in item inv then remove_first_item inv item else inv
  ("You equip the " ++ item.name ++ ".", { p with equipment := equipment, inventory := inv })

/-- entities.py `Player.equip` lines 463-492: reject items without an equip
slot, items whose slot is not an equipment key, and — for items whose category
is a weapon (resp. armor) category — items that are not (by identity) in the
archetype's proficiency allow-list; otherwise install the item. -/
def equip (p : PlayerEquip) (item : Item) : String × PlayerEquip :=
  match item.equip_slot with
  | none => ("You can't equip that.", p)
  | some slot =>
    if dict_hasKey p.equipment slot = false then ("Invalid equipment slot.", p)
    else
      match item.category with
      | some c =>
        if c ∈ WEAPON_CATEGORIES then
          if item_in item (get_weapons_by_proficiency p.archetype) = false then
            (p.archetype ++ "s cannot use " ++ item.name ++ "!", p)
          else equip_install p item slot
        else if c ∈ ARMOR_CATEGORIES then
          if item_in item (get_armor_by_proficiency p.archetype) = false then
            (p.archetype ++ "s cannot wear " ++ item.name ++ "!", p)
          else equip_install p item slot
        else equip_install p item slot
      | none => equip_install p item slot

theorem count_oid_append (l1 l2 : List Item) (i : Nat) :
    count_oid (l1 ++ l2) i = count_oid l1 i + count_oid l2 i := by
  simp [count_oid, List.filter_append]

theorem count_oid_cons (x : Item) (xs : List Item) (i : Nat) :
    count_oid (x :: xs) i = (if x.oid = i then 1 else 0) + count_oid xs i := by
  by_cases h : x.oid = i
  · simp [count_oid, List.filter_cons, h]
    omega
  · simp [count_oid, List.filter_cons, h]

theorem count_oid_remove_self (l : List Item) (it : Item) :
    count_oid (remove_first_item l it) it.oid = count_oid l it.oid - 1 := by
  induction l with
  | nil => simp [remove_first_item, count_oid]
  | cons x xs ih =>
    by_cases h : x.oid = it.oid
    · rw [remove_first_item, if_pos h, count_oid_cons, if_pos h]
      omega
    · rw [remove_first_item, if_neg h, count_oid_cons, if_neg h,
        count_oid_cons, if_neg h]
      omega

theorem count_oid_remove_other (l : List Item) (it : Item) (i : Nat) (h : i ≠ it.oid) :
    count_oid (remove_first_item l it) i = count_oid l i := by
  induction l with
  | nil => simp [remove_first_item]
  | cons x xs ih =>
    by_cases hx : x.oid = it.oid
    · have hxi : ¬ x.oid = i := by omega
      rw [remove_first_item, if_pos hx, count_oid_cons, if_neg hxi]
      omega
    · rw [remove_first_item, if_neg hx, count_oid_cons, count_oid_cons]
      omega

theorem item_in_iff_count (l : List Item) (it : Item) :
    item_in it l = true ↔ 0 < count_oid l it.oid := by
  induction l with
  | nil => simp [item_in, count_oid]
  | cons x xs ih =>
    by_cases h : x.oid = it.oid
    · rw [item_in, if_pos h, count_oid_cons, if_pos h]
      simp
    · rw [item_in, if_neg h, count_oid_cons, if_neg h, ih]
      omega

theorem equip_install_spec (p : PlayerEquip) (item : Item) (slot : String) (old : Option Item)
    (hold : dict_getD p.equipment slot none = old)
    (hcount : count_oid p.inventory item.oid = 1)
    (holdne : ∀ o, old = some o → o.oid ≠ item.oid) :
    (equip_install p item slot).1 = "You equip the " ++ item.name ++ "." ∧
    dict_get (equip_install p item slot).2.equipment slot = some (some item) ∧
    (∀ o, old = some o → count_oid (equip_install p item slot).2.inventory o.oid
        = count_oid p.inventory o.oid + 1) ∧
    count_oid (equip_install p item slot).2.inventory item.oid = 0 := by
  cases old with
  | none =>
    have hin : item_in item p.inventory = true := by
      rw [item_in_iff_count]
      omega
    have hres : equip_install p item slot
        = ("You equip the " ++ item.name ++ ".",
           { p with equipment := dict_set p.equipment slot (some item),
                    inventory := remove_first_item p.inventory item }) := by
      unfold equip_install
      rw [hold]
      simp only [hin, if_true]
    rw [hres]
    dsimp only
    refine ⟨rfl, dict_get_set_self _ _ _, ?_, ?_⟩
    · intro o ho
      cases ho
    · have h0 := count_oid_remove_self p.inventory item
      omega
  | some o =>
    have hne : o.oid ≠ item.oid := holdne o rfl
    have hone : count_oid [o] item.oid = 0 := by
      simp [count_oid, hne]
    have hoo : count_oid [o] o.oid = 1 := by
      simp [count_oid]
    have hcat : count_oid (p.inventory ++ [o]) item.oid = 1 := by
      rw [count_oid_append, hcount, hone]
    have hin : item_in item (p.inventory ++ [o]) = true := by
      rw [item_in_iff_count]
      omega
    have hres : equip_install p item slot
        = ("You equip the " ++ item.name ++ ".",
           { p with equipment := dict_set p.equipment slot (some item),
                    inventory := remove_first_item (p.inventory ++ [o]) item }) := by
      unfold equip_install
      rw [hold]
      simp only [hin, if_true]
    rw [hres]
    dsimp only
    refine ⟨rfl, dict_get_set_self _ _ _, ?_, ?_⟩
    · intro o2 ho2
      injection ho2 with ho2
      subst ho2
      have h1 : count_oid (remove_first_item (p.inventory ++ [o]) item) o.oid
          = count_oid (p.inventory ++ [o]) o.oid :=
        count_oid_remove_other _ _ _ (by omega)
      have h2 := count_oid_append p.inventory [o] o.oid
      omega
    · have h0 := count_oid_remove_self (p.inventory ++ [o]) item
      omega

/-- C8 (amended): `equip` fails with a descriptive message when the item has
no equip slot, when the slot is not an equipment key, or when the item's
category is a weapon (resp. armor) category and the item is not — by object
identity — one of the canonical items in the archetype's proficiency
allow-list (so proficiency is per item object, not per category); on success
the previously equipped item in the slot (if any) returns to inventory and
the newly equipped item moves from inventory into the slot. -/
theorem equip_spec :
    (∀ (p : PlayerEquip) (item : Item), item.equip_slot = none →
      equip p item = ("You can't equip that.", p)) ∧
    (∀ (p : PlayerEquip) (item : Item) (slot : String), item.equip_slot = some slot →
      dict_hasKey p.equipment slot = false →
      equip p item = ("Invalid equipment slot.", p)) ∧
    (∀ (p : PlayerEquip) (item : Item) (slot : String) (c : String),
      item.equip_slot = some slot → dict_hasKey p.equipment slot = true →
      item.category = some c → c ∈ WEAPON_CATEGORIES →
      item_in item (get_weapons_by_proficiency p.archetype) = false →
      equip p item = (p.archetype ++ "s cannot use " ++ item.name ++ "!", p)) ∧
    (∀ (p : PlayerEquip) (item : Item) (slot : String) (c : String),
      item.equip_slot = some slot → dict_hasKey p.equipment slot = true →
      item.category = some c → c ∉ WEAPON_CATEGORIES → c ∈ ARMOR_CATEGORIES →
      item_in item (get_armor_by_proficiency p.archetype) = false →
      equip p item = (p.archetype ++ "s cannot wear " ++ item.name ++ "!", p)) ∧
    (∀ (p : PlayerEquip) (item : Item) (slot : String) (old : Option Item),
      item.equip_slot = some slot → dict_hasKey p.equipment slot = true →
      (∀ c, item.category = some c →
        (c ∈ WEAPON_CATEGORIES → item_in item (get_weapons_by_proficiency p.archetype) = true) ∧
        (c ∉ WEAPON_CATEGORIES → c ∈ ARMOR_CATEGORIES →
          item_in item (get_armor_by_proficiency p.archetype) = true)) →
      dict_getD p.equipment slot none = old →
      count_oid p.inventory item.oid = 1 →
      (∀ o, old = some o → o.oid ≠ item.oid) →
      (equip p item).1 = "You equip the " ++ item.name ++ "." ∧
      dict_get (equip p item).2.equipment slot = some (some item) ∧
      (∀ o, old = some o → count_oid (equip p item).2.inventory o.oid
          = count_oid p.inventory o.oid + 1) ∧
      count_oid (equip p item).2.inventory item.oid = 0) := by
  refine ⟨?_, ?_, ?_, ?_, ?_⟩
  · intro p item hslot
    unfold equip
    rw [hslot]
  · intro p item slot hslot hkey
    unfold equip
    rw [hslot]
    simp [hkey]
  · intro p item slot c hslot hkey hcat hcw hnin
    unfold equip
    rw [hslot]
    simp [hkey, hcat, hcw, hnin]
  · intro p item slot c hslot hkey hcat hcw hca hnin
    unfold equip
    rw [hslot]
    simp [hkey, hcat, hcw, hca, hnin]
  · intro p item slot old hslot hkey hprof hold hcount holdne
    have hinstall : equip p item = equip_install p item slot := by
      unfold equip
      rw [hslot]
      simp only [hkey]
      cases hcat : item.category with
      | none => simp
      | some c =>
        by_cases hcw : c ∈ WEAPON_CATEGORIES
        · have hin := (hprof c hcat).1 hcw
          simp [hcw, hin]
        · by_cases hca : c ∈ ARMOR_CATEGORIES
          · have hin := (hprof c hcat).2 hcw hca
            simp [hcw, hca, hin]
          · simp [hcw, hca]
    rw [hinstall]
    exact equip_install_spec p item slot old hold hcount holdne

/-- C8 witness: a Mage equipping the Dagger from inventory into the empty
Weapon slot succeeds and moves it out of inventory, while a Warrior cannot
equip the Potion of Healing (no equip slot). -/
theorem equip_spec_witness :
    ((equip ⟨"Mage", [("Weapon", none), ("Armor", none), ("Shield", none), ("Ring", none)],
        [dagger, health_potion]⟩ dagger).1 = "You equip the " ++ dagger.name ++ "." ∧
      dict_get (equip ⟨"Mage", [("Weapon", none), ("Armor", none), ("Shield", none), ("Ring", none)],
        [dagger, health_potion]⟩ dagger).2.equipment "Weapon" = some (some dagger) ∧
      (∀ o, (none : Option Item) = some o →
        count_oid (equip ⟨"Mage", [("Weapon", none), ("Armor", none), ("Shield", none), ("Ring", none)],
          [dagger, health_potion]⟩ dagger).2.inventory o.oid
          = count_oid [dagger, health_potion] o.oid + 1) ∧
      count_oid (equip ⟨"Mage", [("Weapon", none), ("Armor", none), ("Shield", none), ("Ring", none)],
        [dagger, health_potion]⟩ dagger).2.inventory dagger.oid = 0) ∧
    equip ⟨"Warrior", [("Weapon", none), ("Armor", none), ("Shield", none), ("Ring", none)],
        [health_potion]⟩ health_potion
      = ("You can't equip that.",
         ⟨"Warrior", [("Weapon", none), ("Armor", none), ("Shield", none), ("Ring", none)],
          [health_potion]⟩) :=
  ⟨equip_spec.2.2.2.2
      ⟨"Mage", [("Weapon", none), ("Armor", none), ("Shield", none), ("Ring", none)],
        [dagger, health_potion]⟩ dagger "Weapon" none rfl (by decide)
      (by
        intro c hc
        injection hc with hc
        subst hc
        exact ⟨fun _ => by decide, fun h _ => absurd (by decide : ("Simple Melee" : String) ∈ WEAPON_CATEGORIES) h⟩)
      (by decide) (by decide) (by intro o ho; cases ho),
   equip_spec.1 _ health_potion rfl⟩

/-- C8 counterexample: "Iron Sword +1" has category "Light Melee", a weapon
category the Warrior archetype is proficient with (the allow-list itself
contains Light Melee weapons, and per the catalog Warriors may use all
weapons), yet `equip` rejects it — because the code tests membership of the
item object in the allow-list, not membership of its category. -/
theorem equip_rejects_proficient_category :
    iron_sword_plus_1.category = some "Light Melee" ∧
    (some "Light Melee") ∈ (get_weapons_by_proficiency "Warrior").map (fun i => i.category) ∧
    equip ⟨"Warrior", [("Weapon", none), ("Armor", none), ("Shield", none), ("Ring", none)],
        [iron_sword_plus_1]⟩ iron_sword_plus_1
      = ("Warriors cannot use Iron Sword +1!",
         ⟨"Warrior", [("Weapon", none), ("Armor", none), ("Shield", none), ("Ring", none)],
          [iron_sword_plus_1]⟩) := by
  refine ⟨rfl, by decide, ?_⟩
  decide

/-! ## Monster templates and the monster attack roll
(config.py MONSTER_TEMPLATES, entities.py lines 494-562) -/

/-- The fields of config.py `MONSTER_TEMPLATES` entries that the modelled
monster code reads. -/
structure MonsterTemplate where
  name : String
  hp : Int
  ac : Int
  attack_bonus : Int
  damage_dice : Nat
  damage_sides : Nat
  xp_value : Int
  special_abilities : List String
deriving DecidableEq

/-- config.py `MONSTER_TEMPLATES`. -/
def MONSTER_TEMPLATES : List (String × MonsterTemplate) :=
  [("Goblin", ⟨"Goblin", 7, 13, 1, 1, 6, 25, ["horde_tactics"]⟩),
   ("Skeleton", ⟨"Skeleton", 13, 12, 2, 1, 8, 50, ["undead_nature", "blunt_vulnerability"]⟩),
   ("Ogre", ⟨"Ogre", 29, 11, 4, 2, 8, 200, ["brute_strength"]⟩),
   ("Giant Spider", ⟨"Giant Spider", 22, 14, 3, 1, 8, 150, ["poison_bite"]⟩)]

/-- The fields of entities.py `Monster` read by the modelled methods.
Monsters keep the default ability scores (all 10), so their STR modifier —
which `Combatant.attack_bonus` adds to `base_attack_bonus` — is stored
explicitly and set to 0 by the constructor. -/
structure Monster where
  x : Int
  y : Int
  template_name : String
  name : String
  hp : Int
  ac : Int
  base_attack_bonus : Int
  str_mod : Int
  damage_dice : Nat
  damage_sides : Nat
  xp_value : Int
  special_abilities : List String
deriving DecidableEq

/-- entities.py `Monster.__init__` lines 496-512: look the template up in
`MONSTER_TEMPLATES` and copy its stats; an unknown template name raises
`ValueError`, modelled as `Except.error`. -/
def mkMonster (x y : Int) (template_name : String) : Except String Monster :=
  match dict_get MONSTER_TEMPLATES template_name with
  | none => .error ("Unknown monster template: " ++ template_name)
  | some t =>
    .ok ⟨x, y, template_name, t.name, t.hp, t.ac, t.attack_bonus, 0,
         t.damage_dice, t.damage_sides, t.xp_value, t.special_abilities⟩

/-- A game object's position — all `check_horde_tactics` could inspect about
its `target` argument (the source ignores the argument entirely). -/
structure GameObj where
  x : Int
  y : Int
deriving DecidableEq

/-- entities.py `Monster.check_horde_tactics` lines 557-562: returns 1
whenever the attacker's template name is literally "Goblin", ignoring the
target and every other combatant's position. -/
def check_horde_tactics (m : Monster) (_target : GameObj) : Int :=
  if m.template_name = "Goblin" then 1 else 0

/-- entities.py `Monster.attack` lines 525-534, the to-hit computation:
`attack_bonus` (base bonus + STR modifier, no equipment on monsters) plus the
horde-tactics bonus when the template lists `horde_tactics`, added to the d20
roll. -/
def monster_attack_total (m : Monster) (target : GameObj) (d20 : Int) : Int :=
  let attack_bonus := m.base_attack_bonus + m.str_mod
  let attack_bonus :=
    if "horde_tactics" ∈ m.special_abilities then
      attack_bonus + check_horde_tactics m target
    else attack_bonus
  d20 + attack_bonus

/-- An ally "nearby" the target in the claim's sense, following the source
comment "+1 if any ally is adjacent to target": some other monster within
Chebyshev distance 1 of the target. -/
def ally_nearby (allies : List GameObj) (target : GameObj) : Bool :=
  allies.any (fun a => decide ((a.x - target.x).natAbs ≤ 1 ∧ (a.y - target.y).natAbs ≤ 1))

/-- C7 counterexample: a freshly constructed Goblin attacking a target with no
allies anywhere (the ally list is empty, so no ally is nearby under any
reading) still gets the horde-tactics +1: its to-hit total on a d20 roll of 10
is 10 + 1 (base) + 1 (horde) = 12, where the claim requires 11. -/
theorem horde_tactics_ignores_allies :
    ally_nearby [] ⟨0, 0⟩ = false ∧
    mkMonster 5 5 "Goblin"
      = Except.ok ⟨5, 5, "Goblin", "Goblin", 7, 13, 1, 0, 1, 6, 25, ["horde_tactics"]⟩ ∧
    monster_attack_total ⟨5, 5, "Goblin", "Goblin", 7, 13, 1, 0, 1, 6, 25, ["horde_tactics"]⟩
        ⟨0, 0⟩ 10 = 12 :=
  ⟨by decide, rfl, by decide⟩

/-- C7 (amended): for a monster whose template lists `horde_tactics`, the
attack adds a flat +1 to the to-hit total exactly when the template name is
"Goblin" — independent of the target and of any ally positions — and adds
nothing otherwise. -/
theorem monster_attack_horde_spec (m : Monster) (t1 t2 : GameObj) (d20 : Int)
    (h : "horde_tactics" ∈ m.special_abilities) :
    (m.template_name = "Goblin" →
      monster_attack_total m t1 d20 = d20 + m.base_attack_bonus + m.str_mod + 1) ∧
    (m.template_name ≠ "Goblin" →
      monster_attack_total m t1 d20 = d20 + m.base_attack_bonus + m.str_mod) ∧
    monster_attack_total m t1 d20 = monster_attack_total m t2 d20 := by
  unfold monster_attack_total check_horde_tactics
  refine ⟨?_, ?_, ?_⟩
  · intro hg
    simp [h, hg]
    omega
  · intro hg
    simp [h, hg]
    omega
  · rfl

/-- C7 amended-claim witness: a Goblin-template monster with horde tactics
hits for `d20 + base + str + 1` regardless of which target is attacked. -/
theorem monster_attack_horde_spec_witness :
    ((⟨5, 5, "Goblin", "Goblin", 7, 13, 1, 0, 1, 6, 25, ["horde_tactics"]⟩ : Monster).template_name
        = "Goblin" →
      monster_attack_total ⟨5, 5, "Goblin", "Goblin", 7, 13, 1, 0, 1, 6, 25, ["horde_tactics"]⟩
        ⟨0, 0⟩ 10 = 10 + 1 + 0 + 1) ∧
    ((⟨5, 5, "Goblin", "Goblin", 7, 13, 1, 0, 1, 6, 25, ["horde_tactics"]⟩ : Monster).template_name
        ≠ "Goblin" →
      monster_attack_total ⟨5, 5, "Goblin", "Goblin", 7, 13, 1, 0, 1, 6, 25, ["horde_tactics"]⟩
        ⟨0, 0⟩ 10 = 10 + 1 + 0) ∧
    monster_attack_total ⟨5, 5, "Goblin", "Goblin", 7, 13, 1, 0, 1, 6, 25, ["horde_tactics"]⟩
        ⟨0, 0⟩ 10
      = monster_attack_total ⟨5, 5, "Goblin", "Goblin", 7, 13, 1, 0, 1, 6, 25, ["horde_tactics"]⟩
        ⟨9, 9⟩ 10 :=
  monster_attack_horde_spec
    ⟨5, 5, "Goblin", "Goblin", 7, 13, 1, 0, 1, 6, 25, ["horde_tactics"]⟩
    ⟨0, 0⟩ ⟨9, 9⟩ 10 (by decide)

/-! ## Bandit Camp placement in generate_overworld
(world_generation.py lines 270-339)

The landmark-placement loop draws random coordinates until one lands on
acceptable terrain or 200 attempts are exhausted; exhausting the budget
silently skips the landmark.  The draws the loop would make are passed in as
an explicit list (at most 200 long), and the terrain classification of the
already-generated base map as a function from coordinates to tile names. -/

/-- world_generation.py line 320 spawns each Bandit Camp interior monster with
`Monster(x + dx, y + dy, 'b', COLOR_RED, "Bandit", 8, 12, 1, 20)` — nine
positional arguments passed to `Monster.__init__(self, x, y, template_name)`,
which accepts three.  In Python this call raises
`TypeError: __init__() takes 4 positional arguments but 10 were given` before
the constructor body runs; the embedding returns that exception as an error.
(entities.py was rewritten around a template-based `Monster`, while
world_generation.py still calls the old multi-argument constructor.) -/
def spawn_bandit_interior_monster (_x _y : Int) : Except String Monster :=
  .error "TypeError: Monster takes 4 positional arguments but 10 were given"

/-- world_generation.py line 319: `for _ in range(random.randint(3,5))`
append one interior monster per iteration; the first raised `TypeError`
propagates. -/
def spawn_bandit_monsters : Nat → Int → Int → Except String (List Monster)
  | 0, _, _ => .ok []
  | n + 1, x, y =>
    match spawn_bandit_interior_monster x y with
    | .error e => .error e
    | .ok m => (spawn_bandit_monsters n x y).map (fun ms => m :: ms)

/-- world_generation.py lines 272-339 specialised to the "Bandit Camp"
definition (`terrain = ["grass", "sand"]`): try each drawn coordinate in
order; on the first draw whose tile name is "grass" or "sand", carve the camp
and spawn its `num_monsters ∈ [3,5]` interior monsters (which raises, see
`spawn_bandit_interior_monster`); if every draw misses, give up silently with
no monsters. -/
def place_bandit_camp (terrain_name : Int → Int → String) :
    List (Int × Int) → Nat → Except String (List Monster)
  | [], _ => .ok []
  | (x, y) :: rest, num_monsters =>
    if terrain_name x y ∈ ["grass", "sand"] then
      spawn_bandit_monsters num_monsters x y
    else place_bandit_camp terrain_name rest num_monsters

set_option maxRecDepth 8192

/-- C2 (code bug): on a map whose first drawn coordinate is grass, Bandit Camp
placement raises `TypeError` out of `generate_overworld` instead of returning
normally — while a run whose 200 draws all miss the required terrain is indeed
silently skipped.  The claim (and the spec) say landmark placement is never
fatal; the code crashes whenever a Bandit Camp site is found. -/
theorem bandit_camp_spawn_raises :
    place_bandit_camp (fun _ _ => "grass") [(20, 20)] 3
      = .error "TypeError: Monster takes 4 positional arguments but 10 were given" ∧
    place_bandit_camp (fun _ _ => "mountain") (List.replicate 200 (20, 20)) 3 = .ok [] :=
  ⟨rfl, rfl⟩

/-! ## Map transitions (engine.py lines 88-135, world_generation.py Place)

Maps are numpy arrays of tiles; the claims about `change_map` and
`return_to_previous_map` concern which map object is installed, caching, the
snapshot stack, and the entity list, so a map is modelled by its object
identity plus its `shape`, and entities by their object ids (the player's id
is carried in the engine state).  A `Place`'s `generator_func` is either
`None` or one of the module-level generator functions
(`generate_village`, `generate_dungeon`); it is modelled as an optional tag
interpreted by a `run_generator` argument mapping tag, width and height to
the generated map, start position, entity list and sub-place list.  Python's
`map_stack.append`/`pop()` pair operates LIFO on the list tail; the model
keeps the stack LIFO with the top at the list head.  `change_map` mutates the
`Place` it is given (the cache) and is instrumented to also report whether it
invoked the generator. -/

/-- A map object: identity plus numpy `shape`. -/
structure MapObj where
  oid : Nat
  shape : Nat × Nat
deriving DecidableEq

/-- world_generation.py `Place`: the fields `change_map` reads and writes. -/
structure Place where
  x : Int
  y : Int
  name : String
  generator_func : Option Nat
  generated_map : Option MapObj
  player_start_pos : Option (Int × Int)
deriving DecidableEq

/-- What a generator function returns: `new_map, player_start, entities,
sub_places`. -/
structure GenResult where
  newMap : MapObj
  playerStart : Int × Int
  entities : List Nat
  subPlaces : List Place
deriving DecidableEq

/-- The snapshot `change_map` pushes on `self.map_stack`. -/
structure MapSnapshot where
  map : MapObj
  player_pos : Int × Int
  entities : List Nat
  places : List Place
  width : Nat
  height : Nat
deriving DecidableEq

/-- The slice of engine.py `Game` state that the map-transition methods
read and write. -/
structure GameSt where
  playerId : Nat
  game_map : MapObj
  player_x : Int
  player_y : Int
  all_entities : List Nat
  places : List Place
  map_width : Nat
  map_height : Nat
  map_stack : List MapSnapshot
  known_locations : List String
  messages : List String
deriving DecidableEq

/-- Python `set.add` on the known-locations set. -/
def addKnownLocation (ks : List String) (n : String) : List String :=
  if n ∈ ks then ks else ks ++ [n]

/-- Result of `change_map`: the engine state, the (possibly mutated) `Place`,
and — instrumentation — whether the generator function was invoked. -/
structure ChangeMapResult where
  state : GameSt
  place : Place
  generatorCalled : Bool
deriving DecidableEq

/-- engine.py `Game.change_map` lines 88-121: a place without a generator
only logs a message; otherwise record the location, push a snapshot of the
current map, player position, entity list, places and dimensions, and either
(first visit) generate a fresh 50×50 sub-map, cache it and its start position
on the `Place` and install `[self.player] + entities`, or (cached) install
the cached map object with the cached start position, an entity list holding
only the player, no places, and the cached map's shape as dimensions. -/
def change_map (run_generator : Nat → Nat → Nat → GenResult)
    (s : GameSt) (place : Place) : ChangeMapResult :=
  match place.generator_func with
  | none =>
    ⟨{ s with messages := s.messages ++ ["This area has not been implemented yet."] },
     place, false⟩
  | some g =>
    let s1 := { s with known_locations := addKnownLocation s.known_locations place.name }
    let snap : MapSnapshot :=
      ⟨s.game_map, (s.player_x, s.player_y), s.all_entities, s.places,
       s.map_width, s.map_height⟩
    let s2 := { s1 with map_stack := snap :: s1.map_stack }
    match place.generated_map with
    | none =>
      let r := run_generator g 50 50
      let place2 := { place with generated_map := some r.newMap,
                                 player_start_pos := some r.playerStart }
      ⟨{ s2 with game_map := r.newMap,
                 player_x := r.playerStart.1, player_y := r.playerStart.2,
                 all_entities := s.playerId :: r.entities,
                 places := r.subPlaces,
                 map_width := 50, map_height := 50,
                 messages := s2.messages ++ ["You enter " ++ place.name ++ "."] },
       place2, true⟩
    | some m =>
      let start := place.player_start_pos.getD (0, 0)
      ⟨{ s2 with game_map := m,
                 player_x := start.1, player_y := start.2,
                 all_entities := [s.playerId],
                 places := [],
                 map_width := m.shape.1, map_height := m.shape.2,
                 messages := s2.messages ++ ["You return to " ++ place.name ++ "."] },
       place, false⟩

/-- engine.py `Game.return_to_previous_map` lines 123-135: with an empty stack
do nothing; otherwise pop the most recent snapshot and restore its map, player
position, entity list, places and dimensions. -/
def return_to_previous_map (s : GameSt) : GameSt :=
  match s.map_stack with
  | [] => s
  | prev :: rest =>
    { s with game_map := prev.map,
             player_x := prev.player_pos.1, player_y := prev.player_pos.2,
             all_entities := prev.entities,
             places := prev.places,
             map_width := prev.width, map_height := prev.height,
             map_stack := rest,
             messages := s.messages ++ ["You return to the wilderness."] }

/-- C3: for every engine state and every place with a generator, `change_map`
pushes a snapshot of the current map, player position, entity list, places
and dimensions, and a subsequent `return_to_previous_map` pops it and
restores the player's (x, y), the entity list, and the rest of the snapshot
to exactly their pre-transition values. -/
theorem change_map_return_roundtrip (run_generator : Nat → Nat → Nat → GenResult)
    (s : GameSt) (place : Place) (g : Nat)
    (hg : place.generator_func = some g) :
    (change_map run_generator s place).state.map_stack
      = (⟨s.game_map, (s.player_x, s.player_y), s.all_entities, s.places,
          s.map_width, s.map_height⟩ : MapSnapshot) :: s.map_stack ∧
    (return_to_previous_map (change_map run_generator s place).state).player_x = s.player_x ∧
    (return_to_previous_map (change_map run_generator s place).state).player_y = s.player_y ∧
    (return_to_previous_map (change_map run_generator s place).state).all_entities
      = s.all_entities ∧
    (return_to_previous_map (change_map run_generator s place).state).game_map = s.game_map ∧
    (return_to_previous_map (change_map run_generator s place).state).places = s.places ∧
    (return_to_previous_map (change_map run_generator s place).state).map_width = s.map_width ∧
    (return_to_previous_map (change_map run_generator s place).state).map_height
      = s.map_height ∧
    (return_to_previous_map (change_map run_generator s place).state).map_stack
      = s.map_stack := by
  cases hm : place.generated_map with
  | none =>
    have hcm : (change_map run_generator s place).state.map_stack
        = (⟨s.game_map, (s.player_x, s.player_y), s.all_entities, s.places,
            s.map_width, s.map_height⟩ : MapSnapshot) :: s.map_stack := by
      unfold change_map
      rw [hg, hm]
    refine ⟨hcm, ?_⟩
    unfold return_to_previous_map
    rw [hcm]
    unfold change_map
    rw [hg, hm]
    exact ⟨rfl, rfl, rfl, rfl, rfl, rfl, rfl, rfl⟩
  | some m =>
    have hcm : (change_map run_generator s place).state.map_stack
        = (⟨s.game_map, (s.player_x, s.player_y), s.all_entities, s.places,
            s.map_width, s.map_height⟩ : MapSnapshot) :: s.map_stack := by
      unfold change_map
      rw [hg, hm]
    refine ⟨hcm, ?_⟩
    unfold return_to_previous_map
    rw [hcm]
    unfold change_map
    rw [hg, hm]
    exact ⟨rfl, rfl, rfl, rfl, rfl, rfl, rfl, rfl⟩

/-- Concrete scenario: a village place with generator tag 0, not yet
generated, reachable from an overworld state whose entity list is
`[player, monster 9]`; the generator produces map object 1 with one NPC
entity (id 7). -/
def cx1_run : Nat → Nat → Nat → GenResult :=
  fun _ w h => ⟨⟨1, (w, h)⟩, (25, 25), [7], []⟩

def cx1_place : Place := ⟨40, 40, "Saltwind Village", some 0, none, none⟩

def cx1_s0 : GameSt :=
  ⟨0, ⟨100, (200, 200)⟩, 40, 40, [0, 9], [cx1_place], 200, 200, [], [], []⟩

/-- First entry into the village. -/
def cx1_first : ChangeMapResult := change_map cx1_run cx1_s0 cx1_place

/-- Leaving the village through the exit tile. -/
def cx1_back : GameSt := return_to_previous_map cx1_first.state

/-- Re-entering the village through its gateway (the cached `Place`). -/
def cx1_second : ChangeMapResult := change_map cx1_run cx1_back cx1_first.place

/-- C3 witness: the concrete enter-and-leave round trip through the village
place restores the overworld state exactly. -/
theorem change_map_return_roundtrip_witness :
    (change_map cx1_run cx1_s0 cx1_place).state.map_stack
      = (⟨cx1_s0.game_map, (cx1_s0.player_x, cx1_s0.player_y), cx1_s0.all_entities,
          cx1_s0.places, cx1_s0.map_width, cx1_s0.map_height⟩ : MapSnapshot)
          :: cx1_s0.map_stack ∧
    (return_to_previous_map (change_map cx1_run cx1_s0 cx1_place).state).player_x
      = cx1_s0.player_x ∧
    (return_to_previous_map (change_map cx1_run cx1_s0 cx1_place).state).player_y
      = cx1_s0.player_y ∧
    (return_to_previous_map (change_map cx1_run cx1_s0 cx1_place).state).all_entities
      = cx1_s0.all_entities ∧
    (return_to_previous_map (change_map cx1_run cx1_s0 cx1_place).state).game_map
      = cx1_s0.game_map ∧
    (return_to_previous_map (change_map cx1_run cx1_s0 cx1_place).state).places
      = cx1_s0.places ∧
    (return_to_previous_map (change_map cx1_run cx1_s0 cx1_place).state).map_width
      = cx1_s0.map_width ∧
    (return_to_previous_map (change_map cx1_run cx1_s0 cx1_place).state).map_height
      = cx1_s0.map_height ∧
    (return_to_previous_map (change_map cx1_run cx1_s0 cx1_place).state).map_stack
      = cx1_s0.map_stack :=
  change_map_return_roundtrip cx1_run cx1_s0 cx1_place 0 rfl

/-- C1 counterexample: the generated village contains NPC 7 on first entry,
and re-entry does install the identical cached map object without calling the
generator — but the entity list on re-entry is `[player]` only: entity 7 does
not persist across visits, refuting the persistence part of the claim. -/
theorem change_map_entities_not_persistent :
    7 ∈ cx1_first.state.all_entities ∧
    cx1_second.state.game_map = cx1_first.state.game_map ∧
    cx1_second.generatorCalled = false ∧
    cx1_second.state.all_entities = [0] ∧
    7 ∉ cx1_second.state.all_entities := by
  decide

/-- C1 (amended): for every place with a generator, the first `change_map`
invokes the generator with the fixed 50×50 dimensions, caches the produced
map and start position on the `Place`, and installs the player plus the
generated entities; every later entry to the same `Place` (in any engine
state) does not invoke the generator, installs the identical cached map
object and cached start position, and resets the entity list to only the
player — the monsters and NPCs inside the sub-map do not persist across
visits. -/
theorem change_map_cache_spec (run_generator : Nat → Nat → Nat → GenResult)
    (s1 s2 : GameSt) (place : Place) (g : Nat)
    (hg : place.generator_func = some g) (hnew : place.generated_map = none) :
    (change_map run_generator s1 place).generatorCalled = true ∧
    (change_map run_generator s1 place).place.generated_map
      = some (run_generator g 50 50).newMap ∧
    (change_map run_generator s1 place).place.player_start_pos
      = some (run_generator g 50 50).playerStart ∧
    (change_map run_generator s1 place).state.game_map = (run_generator g 50 50).newMap ∧
    (change_map run_generator s1 place).state.map_width = 50 ∧
    (change_map run_generator s1 place).state.map_height = 50 ∧
    (change_map run_generator s1 place).state.all_entities
      = s1.playerId :: (run_generator g 50 50).entities ∧
    (change_map run_generator s2 (change_map run_generator s1 place).place).generatorCalled
      = false ∧
    (change_map run_generator s2 (change_map run_generator s1 place).place).state.game_map
      = (run_generator g 50 50).newMap ∧
    (change_map run_generator s2 (change_map run_generator s1 place).place).place
      = (change_map run_generator s1 place).place ∧
    (change_map run_generator s2 (change_map run_generator s1 place).place).state.player_x
      = (run_generator g 50 50).playerStart.1 ∧
    (change_map run_generator s2 (change_map run_generator s1 place).place).state.player_y
      = (run_generator g 50 50).playerStart.2 ∧
    (change_map run_generator s2 (change_map run_generator s1 place).place).state.all_entities
      = [s2.playerId] := by
  have hfirst : change_map run_generator s1 place
      = ⟨{ s1 with
             known_locations := addKnownLocation s1.known_locations place.name,
             map_stack := (⟨s1.game_map, (s1.player_x, s1.player_y), s1.all_entities,
               s1.places, s1.map_width, s1.map_height⟩ : MapSnapshot) :: s1.map_stack,
             game_map := (run_generator g 50 50).newMap,
             player_x := (run_generator g 50 50).playerStart.1,
             player_y := (run_generator g 50 50).playerStart.2,
             all_entities := s1.playerId :: (run_generator g 50 50).entities,
             places := (run_generator g 50 50).subPlaces,
             map_width := 50, map_height := 50,
             messages := s1.messages ++ ["You enter " ++ place.name ++ "."] },
         { place with generated_map := some (run_generator g 50 50).newMap,
                      player_start_pos := some (run_generator g 50 50).playerStart },
         true⟩ := by
    unfold change_map
    rw [hg, hnew]
  rw [hfirst]
  have hsecond : change_map run_generator s2
      { place with generated_map := some (run_generator g 50 50).newMap,
                   player_start_pos := some (run_generator g 50 50).playerStart }
      = ⟨{ s2 with
             known_locations := addKnownLocation s2.known_locations place.name,
             map_stack := (⟨s2.game_map, (s2.player_x, s2.player_y), s2.all_entities,
               s2.places, s2.map_width, s2.map_height⟩ : MapSnapshot) :: s2.map_stack,
             game_map := (run_generator g 50 50).newMap,
             player_x := (run_generator g 50 50).playerStart.1,
             player_y := (run_generator g 50 50).playerStart.2,
             all_entities := [s2.playerId],
             places := [],
             map_width := (run_generator g 50 50).newMap.shape.1,
             map_height := (run_generator g 50 50).newMap.shape.2,
             messages := s2.messages ++ ["You return to " ++ place.name ++ "."] },
         { place with generated_map := some (run_generator g 50 50).newMap,
                      player_start_pos := some (run_generator g 50 50).playerStart },
         false⟩ := by
    unfold change_map
    rw [hg]
    rfl
  rw [hsecond]
  exact ⟨rfl, rfl, rfl, rfl, rfl, rfl, rfl, rfl, rfl, rfl, rfl, rfl, rfl⟩

/-- C1 witness: the concrete village scenario — first entry installs map
object 1 with entities `[0, 7]` and caches it; the re-entry after leaving
installs the same object without regeneration and entity list `[0]`. -/
theorem change_map_cache_spec_witness :
    (change_map cx1_run cx1_s0 cx1_place).generatorCalled = true ∧
    (change_map cx1_run cx1_s0 cx1_place).place.generated_map
      = some (cx1_run 0 50 50).newMap ∧
    (change_map cx1_run cx1_s0 cx1_place).place.player_start_pos
      = some (cx1_run 0 50 50).playerStart ∧
    (change_map cx1_run cx1_s0 cx1_place).state.game_map = (cx1_run 0 50 50).newMap ∧
    (change_map cx1_run cx1_s0 cx1_place).state.map_width = 50 ∧
    (change_map cx1_run cx1_s0 cx1_place).state.map_height = 50 ∧
    (change_map cx1_run cx1_s0 cx1_place).state.all_entities
      = cx1_s0.playerId :: (cx1_run 0 50 50).entities ∧
    (change_map cx1_run cx1_back (change_map cx1_run cx1_s0 cx1_place).place).generatorCalled
      = false ∧
    (change_map cx1_run cx1_back (change_map cx1_run cx1_s0 cx1_place).place).state.game_map
      = (cx1_run 0 50 50).newMap ∧
    (change_map cx1_run cx1_back (change_map cx1_run cx1_s0 cx1_place).place).place
      = (change_map cx1_run cx1_s0 cx1_place).place ∧
    (change_map cx1_run cx1_back (change_map cx1_run cx1_s0 cx1_place).place).state.player_x
      = (cx1_run 0 50 50).playerStart.1 ∧
    (change_map cx1_run cx1_back (change_map cx1_run cx1_s0 cx1_place).place).state.player_y
      = (cx1_run 0 50 50).playerStart.2 ∧
    (change_map cx1_run cx1_back (change_map cx1_run cx1_s0 cx1_place).place).state.all_entities
      = [cx1_back.playerId] :=
  change_map_cache_spec cx1_run cx1_s0 cx1_back cx1_place 0 rfl rfl

/-! ## The monster-turn pass (engine.py lines 816-831)

`monster_turns` prunes dead entities and then lets each non-player combatant
take a turn via the dynamically dispatched `take_turn` method (default
hostile AI, NPC no-op, or Crow wander).  The pass's control flow is what the
claim is about, so the dispatched method is a parameter of the embedding;
every implementation in entities.py leaves the engine's entity list, game
state and running flag untouched (they only move the acting monster or damage
the player), which the theorems take as framing hypotheses.  An entity is
modelled by its object id, whether it is the player object
(`entity is not self.player`), whether it has an `hp` attribute, and its hp
at prune time (no `take_turn` implementation changes a monster's hp during
the pass; the player's live hp is tracked in the engine state).  The pass is
instrumented to also return the ids of the entities that acted, in order. -/

/-- An entry of `self.all_entities` as seen by `monster_turns`. -/
structure Ent where
  eid : Nat
  isPlayer : Bool
  hasHp : Bool
  hp : Int
deriving DecidableEq

/-- The slice of engine.py `Game` state that `monster_turns` reads and
writes. -/
structure TurnSt where
  all_entities : List Ent
  player_hp : Int
  game_state : String
  running : Bool
deriving DecidableEq

/-- engine.py lines 821-831, the `for entity in self.all_entities` loop:
skip the player and entities without hp; after each acting entity's turn,
if the player's hp dropped to 0 or below, set game over, stop the run loop
and break out of the pass. -/
def monster_turns_loop (take_turn : Ent → TurnSt → TurnSt) :
    List Ent → TurnSt → List Nat → TurnSt × List Nat
  | [], s, acted => (s, acted)
  | e :: rest, s, acted =>
    if !e.isPlayer && e.hasHp then
      let s1 := take_turn e s
      let acted1 := acted ++ [e.eid]
      if s1.player_hp ≤ 0 then
        ({ s1 with game_state := "game_over", running := false }, acted1)
      else monster_turns_loop take_turn rest s1 acted1
    else monster_turns_loop take_turn rest s acted

/-- engine.py `Game.monster_turns` lines 816-831: prune entities that have hp
and are at 0 or below, then run the turn loop over the pruned list. -/
def monster_turns (take_turn : Ent → TurnSt → TurnSt) (s : TurnSt) : TurnSt × List Nat :=
  let pruned := s.all_entities.filter (fun e => !(e.hasHp && decide (e.hp ≤ 0)))
  monster_turns_loop take_turn pruned { s with all_entities := pruned } []

theorem monster_turns_loop_spec (take_turn : Ent → TurnSt → TurnSt)
    (hframe : ∀ e st, (take_turn e st).all_entities = st.all_entities ∧
      (take_turn e st).game_state = st.game_state ∧
      (take_turn e st).running = st.running) :
    ∀ (l : List Ent) (s : TurnSt) (acc : List Nat),
      s.game_state = "playing" → s.running = true → 0 < s.player_hp →
      (monster_turns_loop take_turn l s acc).1.all_entities = s.all_entities ∧
      (∃ k, (monster_turns_loop take_turn l s acc).2
        = acc ++ ((l.filter (fun e => !e.isPlayer && e.hasHp)).map (fun e => e.eid)).take k) ∧
      ((monster_turns_loop take_turn l s acc).1.player_hp ≤ 0 →
        (monster_turns_loop take_turn l s acc).1.game_state = "game_over" ∧
        (monster_turns_loop take_turn l s acc).1.running = false) ∧
      (0 < (monster_turns_loop take_turn l s acc).1.player_hp →
        (monster_turns_loop take_turn l s acc).1.game_state = "playing" ∧
        (monster_turns_loop take_turn l s acc).1.running = true ∧
        (monster_turns_loop take_turn l s acc).2
          = acc ++ (l.filter (fun e => !e.isPlayer && e.hasHp)).map (fun e => e.eid)) := by
  intro l
  induction l with
  | nil =>
    intro s acc hgs hrun hhp
    refine ⟨rfl, ⟨0, by simp [monster_turns_loop]⟩, ?_, ?_⟩
    · intro hle
      simp only [monster_turns_loop] at hle
      omega
    · intro _
      simp [monster_turns_loop, hgs, hrun]
  | cons e rest ih =>
    intro s acc hgs hrun hhp
    by_cases hact : (!e.isPlayer && e.hasHp) = true
    · have hf := hframe e s
      by_cases hdead : (take_turn e s).player_hp ≤ 0
      · have hres : monster_turns_loop take_turn (e :: rest) s acc
            = ({ take_turn e s with game_state := "game_over", running := false },
               acc ++ [e.eid]) := by
          simp [monster_turns_loop, hact, hdead]
        rw [hres]
        refine ⟨hf.1, ⟨1, ?_⟩, fun _ => ⟨rfl, rfl⟩, ?_⟩
        · simp [List.filter_cons, hact]
        · intro hpos
          dsimp only at hpos
          omega
      · have hres : monster_turns_loop take_turn (e :: rest) s acc
            = monster_turns_loop take_turn rest (take_turn e s) (acc ++ [e.eid]) := by
          simp [monster_turns_loop, hact, hdead]
        rw [hres]
        have ihs := ih (take_turn e s) (acc ++ [e.eid])
          (by rw [hf.2.1]; exact hgs) (by rw [hf.2.2]; exact hrun) (by omega)
        obtain ⟨ih1, ⟨k, ihk⟩, ih3, ih4⟩ := ihs
        refine ⟨by rw [ih1, hf.1], ⟨k + 1, ?_⟩, ih3, ?_⟩
        · rw [ihk]
          simp [List.filter_cons, hact, List.take_succ_cons]
        · intro hpos
          obtain ⟨g1, g2, g3⟩ := ih4 hpos
          refine ⟨g1, g2, ?_⟩
          rw [g3]
          simp [List.filter_cons, hact]
    · have hres : monster_turns_loop take_turn (e :: rest) s acc
          = monster_turns_loop take_turn rest s acc := by
        simp [monster_turns_loop, hact]
      rw [hres]
      have ihs := ih s acc hgs hrun hhp
      obtain ⟨ih1, ⟨k, ihk⟩, ih3, ih4⟩ := ihs
      refine ⟨ih1, ⟨k, ?_⟩, ih3, ?_⟩
      · rw [ihk]
        simp [List.filter_cons, hact]
      · intro hpos
        obtain ⟨g1, g2, g3⟩ := ih4 hpos
        refine ⟨g1, g2, ?_⟩
        rw [g3]
        simp [List.filter_cons, hact]

/-- C6: in a monster-turn pass starting from a live, playing state, entities
with hp ≤ 0 are pruned before the pass (and every remaining combatant
therefore has hp > 0); the entities that act are exactly the non-player
combatants of the pruned list in list order — each acting exactly once when
the player survives — and the acted sequence is always an order-preserving
prefix of that list: once the player's hp drops to ≤ 0 during a monster's
turn the remaining monsters are skipped, the game state becomes "game_over"
and the run loop is stopped. -/
theorem monster_turns_pass_spec (take_turn : Ent → TurnSt → TurnSt) (s : TurnSt)
    (hframe : ∀ e st, (take_turn e st).all_entities = st.all_entities ∧
      (take_turn e st).game_state = st.game_state ∧
      (take_turn e st).running = st.running)
    (hgs : s.game_state = "playing") (hrun : s.running = true) (hhp : 0 < s.player_hp) :
    (monster_turns take_turn s).1.all_entities
      = s.all_entities.filter (fun e => !(e.hasHp && decide (e.hp ≤ 0))) ∧
    (∀ e ∈ s.all_entities.filter (fun e => !(e.hasHp && decide (e.hp ≤ 0))),
      e.hasHp = true → 0 < e.hp) ∧
    (∃ k, (monster_turns take_turn s).2
      = (((s.all_entities.filter (fun e => !(e.hasHp && decide (e.hp ≤ 0)))).filter
          (fun e => !e.isPlayer && e.hasHp)).map (fun e => e.eid)).take k) ∧
    ((monster_turns take_turn s).1.player_hp ≤ 0 →
      (monster_turns take_turn s).1.game_state = "game_over" ∧
      (monster_turns take_turn s).1.running = false) ∧
    (0 < (monster_turns take_turn s).1.player_hp →
      (monster_turns take_turn s).1.game_state = "playing" ∧
      (monster_turns take_turn s).1.running = true ∧
      (monster_turns take_turn s).2
        = ((s.all_entities.filter (fun e => !(e.hasHp && decide (e.hp ≤ 0)))).filter
            (fun e => !e.isPlayer && e.hasHp)).map (fun e => e.eid)) := by
  have hloop := monster_turns_loop_spec take_turn hframe
    (s.all_entities.filter (fun e => !(e.hasHp && decide (e.hp ≤ 0))))
    { s with all_entities := s.all_entities.filter (fun e => !(e.hasHp && decide (e.hp ≤ 0))) }
    [] hgs hrun hhp
  obtain ⟨h1, ⟨k, hk⟩, h3, h4⟩ := hloop
  refine ⟨h1, ?_, ⟨k, by rw [monster_turns] at *; simpa using hk⟩, h3, ?_⟩
  · intro e he hhpattr
    have hcond := List.of_mem_filter he
    rw [hhpattr] at hcond
    simp only [Bool.true_and, Bool.not_eq_true', decide_eq_false_iff_not] at hcond
    omega
  · intro hpos
    obtain ⟨g1, g2, g3⟩ := h4 hpos
    exact ⟨g1, g2, by rw [monster_turns] at *; simpa using g3⟩

/-- Concrete pass: a wolf-pack scenario whose `take_turn` always bites the
player for 2 hp — the player entry, one live goblin, one dead skeleton
(pruned), and one NPC without hp. -/
def w6_take : Ent → TurnSt → TurnSt :=
  fun _ st => { st with player_hp := st.player_hp - 2 }

def w6_s : TurnSt :=
  ⟨[⟨0, true, true, 10⟩, ⟨1, false, true, 7⟩, ⟨2, false, true, 0⟩, ⟨3, false, false, 0⟩],
   10, "playing", true⟩

/-- C6 witness: in the concrete pass the dead skeleton is pruned, only the
goblin acts (once), and the surviving player leaves the game playing. -/
theorem monster_turns_pass_spec_witness :
    (monster_turns w6_take w6_s).1.all_entities
      = w6_s.all_entities.filter (fun e => !(e.hasHp && decide (e.hp ≤ 0))) ∧
    (∀ e ∈ w6_s.all_entities.filter (fun e => !(e.hasHp && decide (e.hp ≤ 0))),
      e.hasHp = true → 0 < e.hp) ∧
    (∃ k, (monster_turns w6_take w6_s).2
      = (((w6_s.all_entities.filter (fun e => !(e.hasHp && decide (e.hp ≤ 0)))).filter
          (fun e => !e.isPlayer && e.hasHp)).map (fun e => e.eid)).take k) ∧
    ((monster_turns w6_take w6_s).1.player_hp ≤ 0 →
      (monster_turns w6_take w6_s).1.game_state = "game_over" ∧
      (monster_turns w6_take w6_s).1.running = false) ∧
    (0 < (monster_turns w6_take w6_s).1.player_hp →
      (monster_turns w6_take w6_s).1.game_state = "playing" ∧
      (monster_turns w6_take w6_s).1.running = true ∧
      (monster_turns w6_take w6_s).2
        = ((w6_s.all_entities.filter (fun e => !(e.hasHp && decide (e.hp ≤ 0)))).filter
            (fun e => !e.isPlayer && e.hasHp)).map (fun e => e.eid)) :=
  monster_turns_pass_spec w6_take w6_s (fun _ _ => ⟨rfl, rfl, rfl⟩) rfl rfl (by decide)
